import Mathlib

/-!
Shallow embedding of `src/ensemble_model.py` (class `EnsembleEvidenceDetector`)
and of the result-table construction in `src/ui.py`.

Modelling conventions:
* Python floats (confidences, raw box coordinates) are modelled as `ℚ`;
  Python ints (pixel coordinates, image dimensions) as `Int` / `ℕ`.
* External calls are inputs to the embedding: the two YOLO models are
  functions `Image → List RawBox` (the value of `model.predict(...)[0].boxes`),
  `cv2.getTextSize` of the label string is a function `String → ℚ → ℕ × ℕ`
  (the label string is `f"{label} {conf:.0%}"`, so the function receives the
  label and the confidence), `datetime.now().isoformat()` is a string
  parameter, and the float formatting `f"{conf:.2%}"` is a function
  `ℚ → String`.  `base_name` (computed in the source by
  `os.path.splitext(os.path.basename(image_path))[0]`, both Python standard
  library) is likewise taken as a string input.
* File writes (`df.to_csv`, `cv2.imwrite`) are recorded in the returned
  `AnalyzeEffects` record instead of performed.
-/

namespace CrimeScene

/-- A decoded image; `img_h, img_w = image.shape[:2]`. -/
structure Image where
  h : ℕ
  w : ℕ
  deriving DecidableEq, Repr

/-- One raw detection from a model: `box.cls[0]`, `box.conf[0]`,
`box.xyxy[0].tolist()`. -/
structure RawBox where
  cls : Int
  conf : ℚ
  rx1 : ℚ
  ry1 : ℚ
  rx2 : ℚ
  ry2 : ℚ
  deriving DecidableEq, Repr

/-- Key/value pairs of `self.std_classes` (ensemble_model.py lines 30-41),
in dictionary order. -/
def stdClassList : List (Int × String) :=
  [(0, "Person"),
   (24, "Backpack"), (26, "Handbag"), (28, "Suitcase"),
   (39, "Bottle"), (40, "Wine Glass"), (41, "Cup"), (45, "Bowl"),
   (43, "Knife"), (76, "Scissors"),
   (67, "Cell Phone"), (73, "Laptop"), (63, "TV/Monitor"), (66, "Keyboard"), (64, "Mouse")]

/-- Key/value pairs of `self.cust_classes` (ensemble_model.py lines 44-47). -/
def custClassList : List (Int × String) :=
  [(0, "Gun"), (1, "Blood Stain")]

/-- Python dict indexing: `d[x]` when `x in d`, `None`-like otherwise. -/
def dictLookup (x : Int) : List (Int × String) → Option String
  | [] => none
  | (k, v) :: rest => if x = k then some v else dictLookup x rest

/-- `self.std_classes` as a lookup: `some` exactly on its keys. -/
def stdClasses (id : Int) : Option String := dictLookup id stdClassList

/-- `self.cust_classes` as a lookup: `some` exactly on its keys. -/
def custClasses (id : Int) : Option String := dictLookup id custClassList

/-- `self.VISUAL_CUTOFF = 0.30` (line 27), the rational 30/100. -/
def VISUAL_CUTOFF : ℚ := mkRat 30 100

/-- Entries of `self.colors` (lines 50-59), BGR triples. -/
def colors_biohazard : Int × Int × Int := (0, 0, 139)

def colors_weapon_gun : Int × Int × Int := (0, 0, 255)

def colors_weapon_knife : Int × Int × Int := (0, 69, 255)

def colors_person : Int × Int × Int := (255, 255, 0)

def colors_digital : Int × Int × Int := (255, 0, 0)

def colors_general : Int × Int × Int := (0, 255, 255)

def colors_text : Int × Int × Int := (255, 255, 255)

def colors_bg_label : Int × Int × Int := (50, 50, 50)

/-- Scan for an occurrence of `pat` at any suffix start. -/
def subScan (pat : List Char) : List Char → Bool
  | [] => pat.isPrefixOf []
  | c :: rest => pat.isPrefixOf (c :: rest) || subScan pat rest

/-- Python's `pat in s` on strings: substring containment. -/
def pyIn (pat s : String) : Bool := subScan pat.toList s.toList

/-- The color-selection chain of lines 143-155. -/
def colorFor (label : String) : Int × Int × Int :=
  if pyIn "Blood" label then colors_biohazard
  else if pyIn "Gun" label then colors_weapon_gun
  else if pyIn "Knife" label then colors_weapon_knife
  else if pyIn "Person" label then colors_person
  else if pyIn "Phone" label || pyIn "Laptop" label then colors_digital
  else colors_general

/-- Python `int()` applied to a float/rational: truncation toward zero. -/
def pyInt (q : ℚ) : Int := if 0 ≤ q then ⌊q⌋ else ⌈q⌉

/-- One entry appended to `master_log` (lines 94-99 / 107-112); the `Box`
field is kept as the four raw coordinates. -/
structure LogEntry where
  source : String
  label : String
  conf : ℚ
  ex1 : ℚ
  ey1 : ℚ
  ex2 : ℚ
  ey2 : ℚ
  deriving DecidableEq, Repr

def mkEntry (src lbl : String) (b : RawBox) : LogEntry :=
  { source := src, label := lbl, conf := b.conf,
    ex1 := b.rx1, ey1 := b.ry1, ex2 := b.rx2, ey2 := b.ry2 }

/-- One pass of the detection loops (lines 91-99 and 104-112): iterate over
the boxes, appending an entry to the running log when the class id is a key
of the class table, skipping it otherwise. -/
def appendPass (classes : Int → Option String) (src : String) (boxes : List RawBox)
    (log0 : List LogEntry) : List LogEntry :=
  boxes.foldl (fun log b =>
    match classes b.cls with
    | some lbl => log ++ [mkEntry src lbl b]
    | none => log) log0

/-- `master_log` after PASS 1 and PASS 2 (lines 86-112): standard-model pass
always, custom-model pass only when `self.model_custom` is loaded. -/
def masterLog (stdBoxes : List RawBox) (custLoaded : Bool) (custBoxes : List RawBox) :
    List LogEntry :=
  let log1 := appendPass stdClasses "Standard_Model" stdBoxes []
  if custLoaded then appendPass custClasses "Custom_Model" custBoxes log1 else log1

/-- One row of `csv_data` (lines 130-139); `Coords` is kept as four fields. -/
structure CsvRow where
  timestamp : String
  image : String
  modelSource : String
  evidenceType : String
  confidenceScore : ℚ
  confidenceText : String
  visualized : String
  cx1 : Int
  cy1 : Int
  cx2 : Int
  cy2 : Int
  deriving DecidableEq, Repr

/-- The label-background / text placement computed in lines 160-189. -/
structure LabelPlacement where
  bgX1 : Int
  bgY1 : Int
  bgX2 : Int
  bgY2 : Int
  textX : Int
  textY : Int
  deriving DecidableEq, Repr

/-- Boundary-aware label placement (lines 165-189): default above the box,
flipped below the top edge by CHECK 1, shifted left by CHECK 2. -/
def labelPlacement (imgW x1 y1 : Int) (textW textH : ℕ) : LabelPlacement :=
  let tw : Int := textW
  let th : Int := textH
  let bgX1 := x1
  let bgY1 := y1 - th - 10
  let bgX2 := x1 + tw + 10
  let bgY2 := y1
  let textX := x1 + 5
  let textY := y1 - 5
  let vert : Int × Int × Int :=
    if y1 - th - 10 < 0 then (y1, y1 + th + 10, y1 + th + 5) else (bgY1, bgY2, textY)
  let horiz : Int × Int × Int :=
    if x1 + tw + 10 > imgW then
      (bgX1 - ((x1 + tw + 10) - imgW), bgX2 - ((x1 + tw + 10) - imgW),
       textX - ((x1 + tw + 10) - imgW))
    else (bgX1, bgX2, textX)
  { bgX1 := horiz.1, bgY1 := vert.1, bgX2 := horiz.2.1, bgY2 := vert.2.1,
    textX := horiz.2.2, textY := vert.2.2 }

/-- The drawing operations recorded for one high-confidence detection
(lines 142-196): bounding rectangle, label background, label text. -/
structure DrawOp where
  x1 : Int
  y1 : Int
  x2 : Int
  y2 : Int
  boxColor : Int × Int × Int
  bgX1 : Int
  bgY1 : Int
  bgX2 : Int
  bgY2 : Int
  bgColor : Int × Int × Int
  textX : Int
  textY : Int
  textColor : Int × Int × Int
  deriving DecidableEq, Repr

/-- The body of the PASS 3 loop for one `master_log` item (lines 118-196):
clamp the integer coordinates, build the CSV row, and when the confidence
clears `VISUAL_CUTOFF` also produce the draw operations. -/
def processItem (now bn : String) (imgW imgH : ℕ) (fmtPct : ℚ → String)
    (textSize : String → ℚ → ℕ × ℕ) (e : LogEntry) : CsvRow × Option DrawOp :=
  let x1 : Int := max 0 (pyInt e.ex1)
  let y1 : Int := max 0 (pyInt e.ey1)
  let x2 : Int := min (imgW : Int) (pyInt e.ex2)
  let y2 : Int := min (imgH : Int) (pyInt e.ey2)
  let row : CsvRow :=
    { timestamp := now, image := bn, modelSource := e.source, evidenceType := e.label,
      confidenceScore := e.conf, confidenceText := fmtPct e.conf,
      visualized := if e.conf > VISUAL_CUTOFF then "YES" else "NO",
      cx1 := x1, cy1 := y1, cx2 := x2, cy2 := y2 }
  if e.conf > VISUAL_CUTOFF then
    let wh := textSize e.label e.conf
    let p := labelPlacement (imgW : Int) x1 y1 wh.1 wh.2
    (row, some { x1 := x1, y1 := y1, x2 := x2, y2 := y2, boxColor := colorFor e.label,
                 bgX1 := p.bgX1, bgY1 := p.bgY1, bgX2 := p.bgX2, bgY2 := p.bgY2,
                 bgColor := colors_bg_label, textX := p.textX, textY := p.textY,
                 textColor := colors_text })
  else (row, none)

/-- Descending order on rows by `Confidence_Score`. -/
def rowGE (a b : CsvRow) : Prop := b.confidenceScore ≤ a.confidenceScore

instance : DecidableRel rowGE :=
  fun a b => inferInstanceAs (Decidable (b.confidenceScore ≤ a.confidenceScore))

instance : IsTotal CsvRow rowGE := ⟨fun a b => le_total b.confidenceScore a.confidenceScore⟩

instance : IsTrans CsvRow rowGE := ⟨fun _ _ _ hab hbc => le_trans hbc hab⟩

/-- `df.sort_values(by="Confidence_Score", ascending=False)` (line 201 of
ensemble_model.py and lines 851-852 of ui.py): a sort of the rows into
descending confidence order. -/
def sortValuesDesc (l : List CsvRow) : List CsvRow := List.insertionSort rowGE l

/-- ui.py lines 851-852: the summary table is the CSV rows sorted by
`Confidence_Score` descending. -/
def uiSummaryTable (csvData : List CsvRow) : List CsvRow := sortValuesDesc csvData

/-- `os.path.join` for the relative components used here. -/
def joinPath (a b : String) : String := a ++ "/" ++ b

/-- The outwardly observable outcome of one `_analyze_image` call. -/
structure AnalyzeEffects where
  /-- `df.to_csv(...)` (lines 199-202): target path and rows, `none` when
  nothing was written. -/
  csvWrite : Option (String × List CsvRow)
  /-- `cv2.imwrite(...)` (line 204): target path, `none` when not reached. -/
  imgWrite : Option String
  /-- The Python return value's `csv_data` component; `none` models the bare
  `return` of line 80 (the function returns `None`). -/
  result : Option (List CsvRow)
  /-- `master_log` as built by PASS 1 / PASS 2. -/
  log : List LogEntry
  /-- The draw operations performed on `annotated_img`. -/
  draws : List DrawOp
  deriving DecidableEq, Repr

/-- `_analyze_image` (lines 78-207).  `imageOpt` is the result of
`cv2.imread(image_path)`; `custLoaded` is the truthiness of
`self.model_custom`; `bn` is `base_name`. -/
def analyzeImage (modelStd modelCust : Image → List RawBox) (custLoaded : Bool)
    (now : String) (fmtPct : ℚ → String) (textSize : String → ℚ → ℕ × ℕ)
    (csvDir visualsDir bn : String) (imageOpt : Option Image) : AnalyzeEffects :=
  match imageOpt with
  | none => { csvWrite := none, imgWrite := none, result := none, log := [], draws := [] }
  | some image =>
    let log := masterLog (modelStd image) custLoaded (modelCust image)
    let processed := log.map (processItem now bn image.w image.h fmtPct textSize)
    let csvData := processed.map Prod.fst
    let draws := processed.filterMap Prod.snd
    { csvWrite :=
        if csvData = [] then none
        else some (joinPath csvDir (bn ++ "_FULL_REPORT.csv"), sortValuesDesc csvData),
      imgWrite := some (joinPath visualsDir (bn ++ "_ANALYSIS.jpg")),
      result := some csvData,
      log := log,
      draws := draws }

/-- `glob.glob(p)` for a pattern `p` without wildcard characters naming an
existing path (here `os.makedirs(p, exist_ok=True)` on line 67 has just
ensured existence): the singleton list of the path itself. -/
def globLiteral (p : String) : List String := [p]

/-- `process_directory` (lines 61-76), reduced to its observable effect on
analysis: the list of paths passed to `_analyze_image`.  Line 64 rebinds the
`input_dir` parameter to `os.path.join(output_root, "input")` before the
`glob.glob(input_dir)` call of line 69. -/
def processDirectoryAnalyzed (inputDir outputRoot : String) : List String :=
  let inputDirRebound := joinPath outputRoot "input"
  globLiteral inputDirRebound

/-- Each detection-loop pass appends exactly the class-table hits, in order. -/
theorem appendPass_eq (classes : Int → Option String) (src : String) (boxes : List RawBox)
    (log0 : List LogEntry) :
    appendPass classes src boxes log0 =
      log0 ++ boxes.filterMap (fun b => (classes b.cls).map (fun l => mkEntry src l b)) := by
  induction boxes generalizing log0 with
  | nil => simp [appendPass]
  | cons b bs ih =>
    have hstep : appendPass classes src (b :: bs) log0 =
        appendPass classes src bs
          (match classes b.cls with
           | some lbl => log0 ++ [mkEntry src lbl b]
           | none => log0) := rfl
    rw [hstep]
    cases hcb : classes b.cls <;> simp [hcb, ih]

/-- `master_log` as filtered standard detections followed by filtered custom
detections. -/
theorem masterLog_eq (stdBoxes : List RawBox) (custLoaded : Bool) (custBoxes : List RawBox) :
    masterLog stdBoxes custLoaded custBoxes =
      stdBoxes.filterMap (fun b => (stdClasses b.cls).map (fun l => mkEntry "Standard_Model" l b))
        ++ (if custLoaded then
              custBoxes.filterMap
                (fun b => (custClasses b.cls).map (fun l => mkEntry "Custom_Model" l b))
            else []) := by
  cases custLoaded <;> simp [masterLog, appendPass_eq]

/-- A successful dict lookup yields one of the dict's values. -/
theorem dictLookup_mem_snd (x : Int) (l : List (Int × String)) (s : String)
    (h : dictLookup x l = some s) : s ∈ l.map Prod.snd := by
  induction l with
  | nil => exact Option.noConfusion h
  | cons kv rest ih =>
    obtain ⟨k, v⟩ := kv
    by_cases hxk : x = k
    · rw [dictLookup, if_pos hxk] at h
      injection h with h
      subst h
      exact List.mem_cons_self _ _
    · rw [dictLookup, if_neg hxk] at h
      exact List.mem_cons_of_mem _ (ih h)

/-- Values of `std_classes` are none of the custom labels. -/
theorem stdClasses_vals (x : Int) (l : String) (h : stdClasses x = some l) :
    l ≠ "Gun" ∧ l ≠ "Blood Stain" := by
  have hm := dictLookup_mem_snd x stdClassList l h
  simp [stdClassList] at hm
  rcases hm with rfl|rfl|rfl|rfl|rfl|rfl|rfl|rfl|rfl|rfl|rfl|rfl|rfl|rfl|rfl <;>
    exact ⟨by decide, by decide⟩

/-- Values of `cust_classes` are exactly the two custom labels. -/
theorem custClasses_vals (x : Int) (l : String) (h : custClasses x = some l) :
    l = "Gun" ∨ l = "Blood Stain" := by
  have hm := dictLookup_mem_snd x custClassList l h
  simp [custClassList] at hm
  exact hm

/-- The descending sort really sorts. -/
theorem sortValuesDesc_sorted (l : List CsvRow) : (sortValuesDesc l).Sorted rowGE :=
  List.sorted_insertionSort rowGE l

/-- The descending sort keeps every row. -/
theorem sortValuesDesc_length (l : List CsvRow) : (sortValuesDesc l).length = l.length :=
  List.length_insertionSort rowGE l

/-- C10: when `cv2.imread` yields `None`, `_analyze_image` returns `None`
immediately: no model output is consulted (the models enter the result only
through the `some` branch), no CSV write and no image write happen, and no
entry or draw is produced. -/
theorem c10_unreadable_image_noop (modelStd modelCust : Image → List RawBox)
    (custLoaded : Bool) (now : String) (fmtPct : ℚ → String)
    (textSize : String → ℚ → ℕ × ℕ) (csvDir visualsDir bn : String) :
    analyzeImage modelStd modelCust custLoaded now fmtPct textSize csvDir visualsDir bn none =
      { csvWrite := none, imgWrite := none, result := none, log := [], draws := [] } := rfl

/-- C4 (code bug): `process_directory` never analyzes the images of the
caller-supplied `input_dir`: the analyzed-path list is the same whatever
`input_dir` is passed, and concretely it is only the literal path
`<output_root>/input` produced by the rebinding of line 64 and the
wildcard-free `glob.glob` of line 69. -/
theorem c4_caller_input_dir_ignored :
    (∀ d1 d2 root : String, processDirectoryAnalyzed d1 root = processDirectoryAnalyzed d2 root)
    ∧ processDirectoryAnalyzed "photos" "case_files" = ["case_files/input"]
    ∧ ¬ ("photos/scene.jpg" ∈ processDirectoryAnalyzed "photos" "case_files") :=
  ⟨fun _ _ _ => rfl, rfl, by decide⟩

/-- C3: the label background sits above the box (from `y1 - text_h - 10` to
`y1`) by default, and sits below the box's top edge (from `y1` to
`y1 + text_h + 10`) exactly when `y1 - text_h - 10 < 0`. -/
theorem c3_label_flip (imgW x1 y1 : Int) (textW textH : ℕ) :
    (if y1 - (textH : Int) - 10 < 0 then
       (labelPlacement imgW x1 y1 textW textH).bgY1 = y1
         ∧ (labelPlacement imgW x1 y1 textW textH).bgY2 = y1 + (textH : Int) + 10
     else
       (labelPlacement imgW x1 y1 textW textH).bgY1 = y1 - (textH : Int) - 10
         ∧ (labelPlacement imgW x1 y1 textW textH).bgY2 = y1)
    ∧ (((labelPlacement imgW x1 y1 textW textH).bgY1 = y1
          ∧ (labelPlacement imgW x1 y1 textW textH).bgY2 = y1 + (textH : Int) + 10)
        ↔ y1 - (textH : Int) - 10 < 0) := by
  constructor
  · by_cases hf : y1 - (textH : Int) - 10 < 0 <;>
      simp only [labelPlacement, hf, ite_true, ite_false] <;>
      refine ⟨?_, ?_⟩ <;> first | trivial | omega
  · constructor
    · rintro ⟨h1, h2⟩
      by_cases hf : y1 - (textH : Int) - 10 < 0
      · exact hf
      · simp only [labelPlacement, hf, ite_false] at h1 h2
        omega
    · intro hf
      simp only [labelPlacement, hf, ite_true]
      refine ⟨?_, ?_⟩ <;> first | trivial | omega

/-- C6: after boundary-aware placement the label background never passes the
right image edge: `bg_x2 ≤ img_w` always, and when the default right edge
`x1 + text_w + 10` exceeds `img_w` both background x-coordinates are shifted
left by exactly `(x1 + text_w + 10) - img_w`. -/
theorem c6_right_edge_shift (imgW x1 y1 : Int) (textW textH : ℕ) :
    (labelPlacement imgW x1 y1 textW textH).bgX2 ≤ imgW
    ∧ (x1 + (textW : Int) + 10 > imgW →
        (labelPlacement imgW x1 y1 textW textH).bgX1
            = x1 - ((x1 + (textW : Int) + 10) - imgW)
          ∧ (labelPlacement imgW x1 y1 textW textH).bgX2 = imgW) := by
  constructor
  · by_cases hx : x1 + (textW : Int) + 10 > imgW <;>
      simp only [labelPlacement, hx, ite_true, ite_false] <;>
      first | trivial | omega
  · intro hc
    simp only [labelPlacement, hc, ite_true]
    refine ⟨?_, ?_⟩ <;> first | trivial | omega

/-- C6 witness: a concrete overflowing placement at the right edge. -/
theorem c6_right_edge_shift_witness :
    (labelPlacement 100 95 50 20 5).bgX1 = 95 - ((95 + (20 : Int) + 10) - 100)
      ∧ (labelPlacement 100 95 50 20 5).bgX2 = 100 :=
  (c6_right_edge_shift 100 95 50 20 5).2 (by decide)

/-- C1: for a readable image, the merged detection log is the standard
model's detections whose class id is a key of `std_classes` (labelled via
`std_classes`, Source `Standard_Model`), followed, when the custom model was
loaded, by the custom model's detections whose class id is a key of
`cust_classes` (labelled via `cust_classes`, Source `Custom_Model`); all
other class ids are discarded. -/
theorem c1_merged_log (modelStd modelCust : Image → List RawBox) (custLoaded : Bool)
    (now : String) (fmtPct : ℚ → String) (textSize : String → ℚ → ℕ × ℕ)
    (csvDir visualsDir bn : String) (img : Image) :
    (analyzeImage modelStd modelCust custLoaded now fmtPct textSize csvDir visualsDir bn
        (some img)).log =
      (modelStd img).filterMap
          (fun b => (stdClasses b.cls).map (fun l => mkEntry "Standard_Model" l b))
        ++ (if custLoaded then
              (modelCust img).filterMap
                (fun b => (custClasses b.cls).map (fun l => mkEntry "Custom_Model" l b))
            else []) := by
  have hlog : (analyzeImage modelStd modelCust custLoaded now fmtPct textSize csvDir
      visualsDir bn (some img)).log = masterLog (modelStd img) custLoaded (modelCust img) := rfl
  rw [hlog, masterLog_eq]

/-- C2: for any merged-log entry, the draw operations exist iff the
confidence strictly exceeds `VISUAL_CUTOFF`, the CSV row is marked
`Visualized = "YES"` iff the confidence strictly exceeds `VISUAL_CUTOFF`,
hence a row reads `"YES"` iff its box was drawn. -/
theorem c2_visualized_iff_drawn (now bn : String) (imgW imgH : ℕ) (fmtPct : ℚ → String)
    (textSize : String → ℚ → ℕ × ℕ) (e : LogEntry) :
    ((processItem now bn imgW imgH fmtPct textSize e).2.isSome ↔ VISUAL_CUTOFF < e.conf)
    ∧ ((processItem now bn imgW imgH fmtPct textSize e).1.visualized = "YES"
        ↔ VISUAL_CUTOFF < e.conf)
    ∧ ((processItem now bn imgW imgH fmtPct textSize e).1.visualized = "YES"
        ↔ (processItem now bn imgW imgH fmtPct textSize e).2.isSome) := by
  by_cases hc : e.conf > VISUAL_CUTOFF <;>
    simp only [processItem, hc, ite_true, ite_false, gt_iff_lt] <;>
    refine ⟨?_, ?_, ?_⟩ <;>
    simp [hc]

/-- C7: in the merged log of a readable image, every `Custom_Model` entry is
labelled `Gun` or `Blood Stain`, and no `Standard_Model` entry carries
either of those labels. -/
theorem c7_custom_exactly_two_classes (modelStd modelCust : Image → List RawBox)
    (custLoaded : Bool) (now : String) (fmtPct : ℚ → String)
    (textSize : String → ℚ → ℕ × ℕ) (csvDir visualsDir bn : String) (img : Image)
    (e : LogEntry)
    (he : e ∈ (analyzeImage modelStd modelCust custLoaded now fmtPct textSize csvDir
        visualsDir bn (some img)).log) :
    (e.source = "Custom_Model" → e.label = "Gun" ∨ e.label = "Blood Stain")
    ∧ (e.source = "Standard_Model" → e.label ≠ "Gun" ∧ e.label ≠ "Blood Stain") := by
  have hlog : (analyzeImage modelStd modelCust custLoaded now fmtPct textSize csvDir
      visualsDir bn (some img)).log = masterLog (modelStd img) custLoaded (modelCust img) := rfl
  rw [hlog, masterLog_eq] at he
  rcases List.mem_append.mp he with hstd | hcust
  · rcases List.mem_filterMap.mp hstd with ⟨b, _, hb⟩
    rcases Option.map_eq_some'.mp hb with ⟨l, hl, hmk⟩
    subst hmk
    refine ⟨fun hsrc => by simp [mkEntry] at hsrc, fun _ => ?_⟩
    exact stdClasses_vals b.cls l hl
  · cases custLoaded with
    | false => simp at hcust
    | true =>
      rw [if_pos rfl] at hcust
      rcases List.mem_filterMap.mp hcust with ⟨b, _, hb⟩
      rcases Option.map_eq_some'.mp hb with ⟨l, hl, hmk⟩
      subst hmk
      refine ⟨fun _ => custClasses_vals b.cls l hl, fun hsrc => by simp [mkEntry] at hsrc⟩

/-- C8: every CSV row of a readable image has coordinates clamped to the
image bounds: `0 ≤ x1`, `0 ≤ y1`, `x2 ≤ img_w`, `y2 ≤ img_h`, whatever the
raw model boxes were. -/
theorem c8_coords_clamped (modelStd modelCust : Image → List RawBox) (custLoaded : Bool)
    (now : String) (fmtPct : ℚ → String) (textSize : String → ℚ → ℕ × ℕ)
    (csvDir visualsDir bn : String) (img : Image) (row : CsvRow)
    (hr : row ∈ ((analyzeImage modelStd modelCust custLoaded now fmtPct textSize csvDir
        visualsDir bn (some img)).result).getD []) :
    0 ≤ row.cx1 ∧ 0 ≤ row.cy1 ∧ row.cx2 ≤ (img.w : Int) ∧ row.cy2 ≤ (img.h : Int) := by
  have hres : ((analyzeImage modelStd modelCust custLoaded now fmtPct textSize csvDir
      visualsDir bn (some img)).result).getD [] =
      (masterLog (modelStd img) custLoaded (modelCust img)).map
        (fun e => (processItem now bn img.w img.h fmtPct textSize e).1) := by
    simp [analyzeImage]
  rw [hres] at hr
  rcases List.mem_map.mp hr with ⟨e, _, hrow⟩
  subst hrow
  by_cases hc : e.conf > VISUAL_CUTOFF <;>
    simp only [processItem, hc, ite_true, ite_false] <;>
    exact ⟨le_max_left 0 _, le_max_left 0 _, min_le_left _ _, min_le_left _ _⟩

/-- The CSV write of a readable image, characterised. -/
theorem analyzeImage_csvWrite (modelStd modelCust : Image → List RawBox) (custLoaded : Bool)
    (now : String) (fmtPct : ℚ → String) (textSize : String → ℚ → ℕ × ℕ)
    (csvDir visualsDir bn : String) (img : Image) :
    (analyzeImage modelStd modelCust custLoaded now fmtPct textSize csvDir visualsDir bn
        (some img)).csvWrite =
      (if ((masterLog (modelStd img) custLoaded (modelCust img)).map
            (fun e => (processItem now bn img.w img.h fmtPct textSize e).1)) = [] then none
       else some (joinPath csvDir (bn ++ "_FULL_REPORT.csv"),
         sortValuesDesc ((masterLog (modelStd img) custLoaded (modelCust img)).map
           (fun e => (processItem now bn img.w img.h fmtPct textSize e).1)))) := by
  simp only [analyzeImage, List.map_map]
  rfl

/-- C9: whenever `_analyze_image` writes a CSV report its rows are sorted by
`Confidence_Score` descending, and the UI summary table built from any row
list is sorted the same way. -/
theorem c9_rows_sorted_desc (modelStd modelCust : Image → List RawBox) (custLoaded : Bool)
    (now : String) (fmtPct : ℚ → String) (textSize : String → ℚ → ℕ × ℕ)
    (csvDir visualsDir bn : String) (imageOpt : Option Image) (p : String)
    (rows uiData : List CsvRow)
    (h : (analyzeImage modelStd modelCust custLoaded now fmtPct textSize csvDir
        visualsDir bn imageOpt).csvWrite = some (p, rows)) :
    rows.Sorted rowGE ∧ (uiSummaryTable uiData).Sorted rowGE := by
  refine ⟨?_, sortValuesDesc_sorted uiData⟩
  cases imageOpt with
  | none => exact absurd h (by simp [analyzeImage])
  | some img =>
    rw [analyzeImage_csvWrite] at h
    split at h
    · exact absurd h (by simp)
    · injection h with h
      rw [Prod.mk.injEq] at h
      exact h.2 ▸ sortValuesDesc_sorted _

/-- C5 (amended): for a readable image the annotated image file is always
written to `visuals_dir`; the CSV file is written to `csv_dir`, with one row
per merged detection (sorted), exactly when the merged log is nonempty. -/
theorem c5_render_amended (modelStd modelCust : Image → List RawBox) (custLoaded : Bool)
    (now : String) (fmtPct : ℚ → String) (textSize : String → ℚ → ℕ × ℕ)
    (csvDir visualsDir bn : String) (img : Image) :
    (analyzeImage modelStd modelCust custLoaded now fmtPct textSize csvDir visualsDir bn
        (some img)).imgWrite = some (joinPath visualsDir (bn ++ "_ANALYSIS.jpg"))
    ∧ ((analyzeImage modelStd modelCust custLoaded now fmtPct textSize csvDir visualsDir bn
        (some img)).log = [] →
        (analyzeImage modelStd modelCust custLoaded now fmtPct textSize csvDir visualsDir bn
          (some img)).csvWrite = none)
    ∧ ((analyzeImage modelStd modelCust custLoaded now fmtPct textSize csvDir visualsDir bn
        (some img)).log ≠ [] →
        (analyzeImage modelStd modelCust custLoaded now fmtPct textSize csvDir visualsDir bn
          (some img)).csvWrite =
          some (joinPath csvDir (bn ++ "_FULL_REPORT.csv"),
            sortValuesDesc
              ((analyzeImage modelStd modelCust custLoaded now fmtPct textSize csvDir
                  visualsDir bn (some img)).log.map
                (fun e => (processItem now bn img.w img.h fmtPct textSize e).1))))
    ∧ (∀ p rows,
        (analyzeImage modelStd modelCust custLoaded now fmtPct textSize csvDir visualsDir bn
          (some img)).csvWrite = some (p, rows) →
        rows.length =
          (analyzeImage modelStd modelCust custLoaded now fmtPct textSize csvDir visualsDir bn
            (some img)).log.length) := by
  have hlog : (analyzeImage modelStd modelCust custLoaded now fmtPct textSize csvDir
      visualsDir bn (some img)).log = masterLog (modelStd img) custLoaded (modelCust img) := rfl
  refine ⟨rfl, ?_, ?_, ?_⟩
  · intro hnil
    rw [hlog] at hnil
    rw [analyzeImage_csvWrite, hnil]
    simp
  · intro hne
    rw [hlog] at hne
    rw [analyzeImage_csvWrite, hlog]
    rw [if_neg (by simp [hne])]
  · intro p rows hcw
    rw [analyzeImage_csvWrite] at hcw
    split at hcw
    · exact absurd hcw (by simp)
    · injection hcw with hcw
      rw [Prod.mk.injEq] at hcw
      rw [← hcw.2, sortValuesDesc_length, List.length_map, hlog]

/-- A pair of models that detect nothing. -/
def noDetections : Image → List RawBox := fun _ => []

/-- C5 counterexample: a readable image with no detections is processed
normally (it has a return value and its annotated image is written), yet no
CSV log file is written, contradicting the claim that every readable image
gets both files. -/
theorem c5_counterexample :
    (analyzeImage noDetections noDetections true "t" (fun _ => "") (fun _ _ => (1, 1))
        "csv" "vis" "img" (some { h := 8, w := 8 })).result ≠ none
    ∧ (analyzeImage noDetections noDetections true "t" (fun _ => "") (fun _ _ => (1, 1))
        "csv" "vis" "img" (some { h := 8, w := 8 })).imgWrite ≠ none
    ∧ (analyzeImage noDetections noDetections true "t" (fun _ => "") (fun _ _ => (1, 1))
        "csv" "vis" "img" (some { h := 8, w := 8 })).csvWrite = none := by
  decide

/-- A concrete example scene used to instantiate the general theorems. -/
def exImage : Image := { h := 10, w := 10 }

/-- Standard-model output of the example scene: a high-confidence person
with out-of-bounds raw coordinates, a low-confidence knife, and a class-5
detection that is not an evidence class. -/
def exStdBoxes : List RawBox :=
  [ { cls := 0, conf := mkRat 9 10, rx1 := mkRat (-11) 2, ry1 := -2, rx2 := 20, ry2 := 999 },
    { cls := 43, conf := mkRat 1 5, rx1 := 1, ry1 := 1, rx2 := 3, ry2 := 3 },
    { cls := 5, conf := 1, rx1 := 0, ry1 := 0, rx2 := 1, ry2 := 1 } ]

/-- Custom-model output of the example scene: a gun, and a class-7
detection that is not a custom class. -/
def exCustBoxes : List RawBox :=
  [ { cls := 0, conf := mkRat 1 2, rx1 := 2, ry1 := 2, rx2 := 4, ry2 := 4 },
    { cls := 7, conf := 1, rx1 := 0, ry1 := 0, rx2 := 1, ry2 := 1 } ]

/-- `_analyze_image` on the example scene. -/
def exAnalyze : AnalyzeEffects :=
  analyzeImage (fun _ => exStdBoxes) (fun _ => exCustBoxes) true "t"
    (fun _ => "pct") (fun _ _ => (4, 3)) "csv" "vis" "img" (some exImage)

/-- The example scene's person row, coordinates clamped to the 10x10 image. -/
def exRow : CsvRow :=
  { timestamp := "t", image := "img", modelSource := "Standard_Model",
    evidenceType := "Person", confidenceScore := mkRat 9 10, confidenceText := "pct",
    visualized := "YES", cx1 := 0, cy1 := 0, cx2 := 10, cy2 := 10 }

/-- The example scene's gun entry. -/
def exGunEntry : LogEntry :=
  { source := "Custom_Model", label := "Gun", conf := mkRat 1 2,
    ex1 := 2, ey1 := 2, ex2 := 4, ey2 := 4 }

/-- C7 witness: the gun entry of the example scene gets a custom label. -/
theorem c7_witness : exGunEntry.label = "Gun" ∨ exGunEntry.label = "Blood Stain" :=
  (c7_custom_exactly_two_classes (fun _ => exStdBoxes) (fun _ => exCustBoxes) true "t"
    (fun _ => "pct") (fun _ _ => (4, 3)) "csv" "vis" "img" exImage exGunEntry
    (by decide)).1 rfl

/-- C8 witness: the example person row, whose raw box stuck out on all
sides, is clamped inside the image. -/
theorem c8_witness :
    0 ≤ exRow.cx1 ∧ 0 ≤ exRow.cy1 ∧ exRow.cx2 ≤ (exImage.w : Int)
      ∧ exRow.cy2 ≤ (exImage.h : Int) :=
  c8_coords_clamped (fun _ => exStdBoxes) (fun _ => exCustBoxes) true "t"
    (fun _ => "pct") (fun _ _ => (4, 3)) "csv" "vis" "img" exImage exRow (by decide)

/-- C9 witness: the CSV rows written for the example scene are sorted. -/
theorem c9_witness :
    ((exAnalyze.csvWrite.getD ("", [])).2).Sorted rowGE
      ∧ (uiSummaryTable []).Sorted rowGE :=
  c9_rows_sorted_desc (fun _ => exStdBoxes) (fun _ => exCustBoxes) true "t"
    (fun _ => "pct") (fun _ _ => (4, 3)) "csv" "vis" "img" (some exImage)
    (exAnalyze.csvWrite.getD ("", [])).1 (exAnalyze.csvWrite.getD ("", [])).2 []
    (by decide)

/-- C5 witness: on the example scene the annotated image and the CSV file
are both written, and the CSV has one row per merged detection. -/
theorem c5_witness :
    exAnalyze.imgWrite = some (joinPath "vis" ("img" ++ "_ANALYSIS.jpg"))
    ∧ exAnalyze.csvWrite = some (joinPath "csv" ("img" ++ "_FULL_REPORT.csv"),
        sortValuesDesc (exAnalyze.log.map
          (fun e => (processItem "t" "img" exImage.w exImage.h (fun _ => "pct")
            (fun _ _ => (4, 3)) e).1)))
    ∧ (exAnalyze.csvWrite.getD ("", [])).2.length = exAnalyze.log.length :=
  ⟨(c5_render_amended (fun _ => exStdBoxes) (fun _ => exCustBoxes) true "t"
      (fun _ => "pct") (fun _ _ => (4, 3)) "csv" "vis" "img" exImage).1,
   (c5_render_amended (fun _ => exStdBoxes) (fun _ => exCustBoxes) true "t"
      (fun _ => "pct") (fun _ _ => (4, 3)) "csv" "vis" "img" exImage).2.2.1 (by decide),
   (c5_render_amended (fun _ => exStdBoxes) (fun _ => exCustBoxes) true "t"
      (fun _ => "pct") (fun _ _ => (4, 3)) "csv" "vis" "img" exImage).2.2.2
     (exAnalyze.csvWrite.getD ("", [])).1 (exAnalyze.csvWrite.getD ("", [])).2 (by decide)⟩

end CrimeScene
